import Mathlib

/-!
Shallow embedding of the TLS handshake simulation UI
(repository classicdba999/TLS_Encryption_Simulation).

The embedded code:
  * `src/types.ts` — `TlsStep`, `SimulationState`, `ChatMessage`;
  * `src/App.tsx` — `STEPS_SEQUENCE`, the playback handlers
    (`handleNext`, `handlePrev`, `handleReset`, `togglePlay`),
    the auto-advance interval callback, the derived `simulationState`,
    the deep-dive effect on `currentStep`, and `handleChatSubmit`;
  * `src/services/geminiService.ts` (file `src/unnamed/part_002`) —
    `explainConcept`, `getStepDeepDive`.

Asynchronous behaviour (the `await`ed service calls and the interval
timer) is modelled as a small-step event system on an explicit
application state: each React event handler or effect is split at its
`await` points, pending requests are recorded in the state tagged with
the data the closure captured at issue time, and a separate arrival
event resumes the continuation. The network is external, so the outcome
of a request (success text or failure) is an event parameter.
-/

/-- The step enumeration from `src/types.ts`. -/
inductive TlsStep
  | IDLE
  | CLIENT_HELLO
  | SERVER_HELLO
  | KEY_DERIVATION
  | SERVER_FINISHED
  | CLIENT_FINISHED
  | SECURE_TUNNEL
deriving DecidableEq, BEq, Repr

/-- `STEPS_SEQUENCE` from `src/App.tsx` (lines 23-31). -/
def STEPS_SEQUENCE : List TlsStep :=
  [TlsStep.IDLE,
   TlsStep.CLIENT_HELLO,
   TlsStep.SERVER_HELLO,
   TlsStep.KEY_DERIVATION,
   TlsStep.SERVER_FINISHED,
   TlsStep.CLIENT_FINISHED,
   TlsStep.SECURE_TUNNEL]

/-- The `title` field of `STEP_DETAILS` in `src/App.tsx`; it is the only
part of the static metadata table that feeds back into the logic (as the
topic of a deep-dive request and as the chat context). -/
def stepTitle : TlsStep → String
  | TlsStep.IDLE => "1. Initial State (TCP Connected)"
  | TlsStep.CLIENT_HELLO => "2. Client Hello"
  | TlsStep.SERVER_HELLO => "3. Server Hello & Certificate"
  | TlsStep.KEY_DERIVATION => "4. Key Derivation"
  | TlsStep.SERVER_FINISHED => "5. Server Finished"
  | TlsStep.CLIENT_FINISHED => "6. Client Finished"
  | TlsStep.SECURE_TUNNEL => "7. Secure Data Tunnel"

/-- The playback portion of the component state: the two `useState`
hooks `currentStepIndex` and `isPlaying` of `App`. -/
structure PlaybackState where
  currentStepIndex : Nat
  isPlaying : Bool
deriving DecidableEq, Repr

/-- `handleNext` from `src/App.tsx` lines 152-158. -/
def handleNext (s : PlaybackState) : PlaybackState :=
  if s.currentStepIndex < STEPS_SEQUENCE.length - 1 then
    { s with currentStepIndex := s.currentStepIndex + 1 }
  else
    { s with isPlaying := false }

/-- `handlePrev` from `src/App.tsx` lines 160-164. -/
def handlePrev (s : PlaybackState) : PlaybackState :=
  if s.currentStepIndex > 0 then
    { s with currentStepIndex := s.currentStepIndex - 1 }
  else
    s

/-- `handleReset` from `src/App.tsx` lines 166-169. -/
def handleReset (_s : PlaybackState) : PlaybackState :=
  { currentStepIndex := 0, isPlaying := false }

/-- `togglePlay` from `src/App.tsx` lines 171-178. -/
def togglePlay (s : PlaybackState) : PlaybackState :=
  if s.currentStepIndex = STEPS_SEQUENCE.length - 1 then
    { handleReset s with isPlaying := true }
  else
    { s with isPlaying := !s.isPlaying }

/-- The auto-advance interval callback from the `useEffect` on
`[isPlaying, currentStepIndex]` (`src/App.tsx` lines 180-188): the
interval exists only while `isPlaying` is true, and fires `handleNext`. -/
def timerTick (s : PlaybackState) : PlaybackState :=
  if s.isPlaying then handleNext s else s

/-- `SimulationState` from `src/types.ts` lines 11-18. Optional string
fields of the TypeScript interface become `Option String`; a field left
out of the object literal is `none`. (The `sessionKey` field is never
set anywhere in the repository and is omitted.) -/
structure SimulationState where
  step : TlsStep
  keysExchanged : Bool
  isEncrypted : Bool
  clientKey : Option String
  serverKey : Option String
deriving DecidableEq, Repr

/-- The derived `simulationState` object of `App` (`src/App.tsx` lines
144-150), as the function of `currentStepIndex` it literally is
(`currentStep` is itself `STEPS_SEQUENCE[currentStepIndex]`). -/
def simulationState (currentStepIndex : Nat) : SimulationState :=
  let currentStep := STEPS_SEQUENCE.getD currentStepIndex TlsStep.IDLE
  { step := currentStep
    keysExchanged := decide (currentStepIndex ≥ 3)
    isEncrypted := decide (currentStep = TlsStep.SECURE_TUNNEL)
    clientKey := if currentStepIndex ≥ 3 then some "generated" else none
    serverKey := if currentStepIndex ≥ 3 then some "generated" else none }

/-- Outcome of one request to the external text service: the service is
an external collaborator, so whether a given request succeeds (and with
what text) or fails is an input to the model. `success ""` models a
response whose `text` field is absent or empty. -/
inductive FetchOutcome
  | success (text : String)
  | failure
deriving DecidableEq, Repr

/-- `explainConcept` from `src/services/geminiService.ts`: the missing
API-key guard, then either the response text (with the
`"No explanation generated."` default when it is empty) or the fixed
catch-branch fallback. -/
def explainConcept (apiKey _concept _context : String)
    (outcome : FetchOutcome) : String :=
  if apiKey = "" then
    "API Key is missing. Please configure your environment to use the AI assistant."
  else
    match outcome with
    | FetchOutcome.success t =>
        if t = "" then "No explanation generated." else t
    | FetchOutcome.failure =>
        "Failed to retrieve explanation. Please try again later."

/-- `getStepDeepDive` from `src/services/geminiService.ts`: the missing
API-key guard, then either the response text (with the
`"No details available."` default when it is empty) or the fixed
catch-branch fallback. -/
def getStepDeepDive (apiKey _stepName : String)
    (outcome : FetchOutcome) : String :=
  if apiKey = "" then
    "API Key required for AI insights."
  else
    match outcome with
    | FetchOutcome.success t =>
        if t = "" then "No details available." else t
    | FetchOutcome.failure =>
        "AI Service temporarily unavailable."

/-- The `role` field of `ChatMessage` (`src/types.ts`): the string union
`'user' | 'model'`. -/
inductive ChatRole
  | user
  | model
deriving DecidableEq, Repr

/-- `ChatMessage` from `src/types.ts` lines 30-34. The optional
`isError?: boolean` field is `none` when the object literal omits it. -/
structure ChatMessage where
  role : ChatRole
  text : String
  isError : Option Bool
deriving DecidableEq, Repr

/-- The full component state of `App`, with the pending asynchronous
continuations made explicit:

* `pendingTip` — deep-dive requests issued by the effect on
  `currentStep` and not yet resolved, each tagged with the step whose
  title the closure captured at issue time;
* `pendingChat` — chat requests issued by `handleChatSubmit` and not
  yet resolved, each tagged with the captured `(userMsg, stepInfo.title)`.

`chatOpen` is omitted: it gates nothing but rendering. -/
structure AppState where
  playback : PlaybackState
  chatInput : String
  chatHistory : List ChatMessage
  isLoading : Bool
  aiTip : String
  pendingTip : List TlsStep
  pendingChat : List (String × String)
deriving DecidableEq, Repr

/-- `currentStep = STEPS_SEQUENCE[currentStepIndex]` (`src/App.tsx`
line 140). -/
def currentStepOf (s : AppState) : TlsStep :=
  STEPS_SEQUENCE.getD s.playback.currentStepIndex TlsStep.IDLE

/-- The deep-dive effect on `[currentStep]` (`src/App.tsx` lines
191-202), run after a handler when the derived `currentStep` changed:
for a non-`IDLE` step it sets the placeholder tip and issues one request
for the step's title; for `IDLE` it sets the static ready message. It
never cancels an already pending request. -/
def runTipEffect (old new : AppState) : AppState :=
  if currentStepOf new = currentStepOf old then
    new
  else if currentStepOf new ≠ TlsStep.IDLE then
    { new with
      aiTip := "Analyzing protocol step..."
      pendingTip := new.pendingTip ++ [currentStepOf new] }
  else
    { new with
      aiTip := "Click \"Start\" or \"Play\" to begin the TLS 1.3 handshake analysis." }

/-- The guard `!chatInput.trim()` of `handleChatSubmit`: the trimmed
input is empty exactly when every character of the input is whitespace.
(`String.trim` itself is defined by well-founded recursion and does not
evaluate inside the kernel, so the guard is embedded through this
equivalent executable predicate.) -/
def trimmedEmpty (s : String) : Bool :=
  s.data.all Char.isWhitespace

/-- The synchronous part of `handleChatSubmit` (`src/App.tsx` lines
204-217), up to its `await`: the empty-input guard, clearing the input,
the optimistic asker turn, `setIsLoading(true)`, and issuing the request
with the captured `(userMsg, stepInfo.title)`. The continuation after
the `await` is the `chatArrives` event of `appStep`. -/
def handleChatSubmit (s : AppState) : AppState :=
  if trimmedEmpty s.chatInput then
    s
  else
    { s with
      chatInput := ""
      chatHistory := s.chatHistory ++
        [{ role := ChatRole.user, text := s.chatInput, isError := none }]
      isLoading := true
      pendingChat := s.pendingChat ++ [(s.chatInput, stepTitle (currentStepOf s))] }

/-- The event alphabet of the component: the five user/timer actions on
playback, typing in the chat box, submitting the chat form, and the
resumption of a pending request (`tipArrives i` / `chatArrives i`
resolve the `i`-th pending request, in either order, with the given
outcome). -/
inductive AppEvent
  | next
  | prev
  | reset
  | togglePlay
  | tick
  | setInput (value : String)
  | chatSubmit
  | tipArrives (i : Nat) (outcome : FetchOutcome)
  | chatArrives (i : Nat) (outcome : FetchOutcome)

/-- One small step of the component. Navigation events update the
playback state through the corresponding handler and then run the
deep-dive effect exactly when the derived `currentStep` changed (its
dependency array is `[currentStep]`). A `tipArrives` resumption performs
the unconditional `setAiTip(tip)` of `fetchQuickTip`; a `chatArrives`
resumption performs the two `set` calls after the `await` in
`handleChatSubmit`. -/
def appStep (apiKey : String) (s : AppState) : AppEvent → AppState
  | AppEvent.next => runTipEffect s { s with playback := handleNext s.playback }
  | AppEvent.prev => runTipEffect s { s with playback := handlePrev s.playback }
  | AppEvent.reset => runTipEffect s { s with playback := handleReset s.playback }
  | AppEvent.togglePlay =>
      runTipEffect s { s with playback := togglePlay s.playback }
  | AppEvent.tick => runTipEffect s { s with playback := timerTick s.playback }
  | AppEvent.setInput v => { s with chatInput := v }
  | AppEvent.chatSubmit => handleChatSubmit s
  | AppEvent.tipArrives i outcome =>
      match s.pendingTip[i]? with
      | none => s
      | some st =>
          { s with
            pendingTip := s.pendingTip.eraseIdx i
            aiTip := getStepDeepDive apiKey (stepTitle st) outcome }
  | AppEvent.chatArrives i outcome =>
      match s.pendingChat[i]? with
      | none => s
      | some qc =>
          { s with
            pendingChat := s.pendingChat.eraseIdx i
            chatHistory := s.chatHistory ++
              [{ role := ChatRole.model
                 text := explainConcept apiKey qc.1 qc.2 outcome
                 isError := none }]
            isLoading := false }

/-- The state after mount: all hooks at their `useState` initial values,
and the deep-dive effect has run once for the initial `IDLE` step,
setting the static ready message. -/
def initialState : AppState :=
  { playback := { currentStepIndex := 0, isPlaying := false }
    chatInput := ""
    chatHistory := []
    isLoading := false
    aiTip := "Click \"Start\" or \"Play\" to begin the TLS 1.3 handshake analysis."
    pendingTip := []
    pendingChat := [] }

/-! ## Helper lemmas -/

lemma runTipEffect_playback (old new : AppState) :
    (runTipEffect old new).playback = new.playback := by
  unfold runTipEffect
  split
  · rfl
  · split <;> rfl

lemma runTipEffect_chatHistory (old new : AppState) :
    (runTipEffect old new).chatHistory = new.chatHistory := by
  unfold runTipEffect
  split
  · rfl
  · split <;> rfl

/-- Every single event either leaves the transcript unchanged or appends
exactly one turn at its end. -/
lemma appStep_chatHistory_append (apiKey : String) (s : AppState) (e : AppEvent) :
    ∃ t, (appStep apiKey s e).chatHistory = s.chatHistory ++ t ∧ t.length ≤ 1 := by
  cases e with
  | next => exact ⟨[], by simp [appStep, runTipEffect_chatHistory], by simp⟩
  | prev => exact ⟨[], by simp [appStep, runTipEffect_chatHistory], by simp⟩
  | reset => exact ⟨[], by simp [appStep, runTipEffect_chatHistory], by simp⟩
  | togglePlay => exact ⟨[], by simp [appStep, runTipEffect_chatHistory], by simp⟩
  | tick => exact ⟨[], by simp [appStep, runTipEffect_chatHistory], by simp⟩
  | setInput v => exact ⟨[], by simp [appStep], by simp⟩
  | chatSubmit =>
      by_cases h : trimmedEmpty s.chatInput = true
      · exact ⟨[], by simp [appStep, handleChatSubmit, h], by simp⟩
      · exact ⟨[{ role := ChatRole.user, text := s.chatInput, isError := none }],
          by simp [appStep, handleChatSubmit, h], by simp⟩
  | tipArrives i outcome =>
      cases h : s.pendingTip[i]? with
      | none => exact ⟨[], by simp [appStep, h], by simp⟩
      | some st => exact ⟨[], by simp [appStep, h], by simp⟩
  | chatArrives i outcome =>
      cases h : s.pendingChat[i]? with
      | none => exact ⟨[], by simp [appStep, h], by simp⟩
      | some qc =>
          exact ⟨[{ role := ChatRole.model
                    text := explainConcept apiKey qc.1 qc.2 outcome
                    isError := none }],
            by simp [appStep, h], by simp⟩


/-- Under any two credentials, every event moves the playback state the
same way: the navigation logic never consults the API key. -/
lemma appStep_playback_key_indep (k1 k2 : String) (s : AppState) (e : AppEvent) :
    (appStep k1 s e).playback = (appStep k2 s e).playback := by
  cases e with
  | next => rfl
  | prev => rfl
  | reset => rfl
  | togglePlay => rfl
  | tick => rfl
  | setInput v => rfl
  | chatSubmit => rfl
  | tipArrives i outcome =>
      cases h : s.pendingTip[i]? with
      | none => simp [appStep, h]
      | some st => simp [appStep, h]
  | chatArrives i outcome =>
      cases h : s.pendingChat[i]? with
      | none => simp [appStep, h]
      | some qc => simp [appStep, h]

/-! ## Claim theorems -/

/-- C5: when no service credential is configured (empty API key), every
enrichment fetch returns the fixed `getStepDeepDive` fallback string and
every chat request returns the fixed `explainConcept` fallback string,
whatever the question, context, topic or network outcome; no exception
is modelled because the guard returns before any request is made. The
third conjunct states that playback and navigation remain fully usable:
the playback component of every transition is identical under every
credential, in particular under the empty one. -/
theorem c5_missing_credential_fallback :
    (∀ concept context outcome,
      explainConcept "" concept context outcome =
        "API Key is missing. Please configure your environment to use the AI assistant.") ∧
    (∀ stepName outcome,
      getStepDeepDive "" stepName outcome = "API Key required for AI insights.") ∧
    (∀ (k : String) (s : AppState) (e : AppEvent),
      (appStep "" s e).playback = (appStep k s e).playback) := by
  refine ⟨?_, ?_, ?_⟩
  · intro concept context outcome
    simp [explainConcept]
  · intro stepName outcome
    simp [getStepDeepDive]
  · intro k s e
    exact appStep_playback_key_indep "" k s e

/-- C6: `handleNext` below the terminal index increments the index by
exactly one and leaves the auto-advance flag alone; at the terminal
index 6 (= N-1) it leaves the index unchanged and clears the flag; and
from index 0 six advances reach index 6 while a seventh leaves it
there. -/
theorem c6_advance_semantics :
    ∀ s : PlaybackState,
      (s.currentStepIndex < 6 →
        (handleNext s).currentStepIndex = s.currentStepIndex + 1 ∧
        (handleNext s).isPlaying = s.isPlaying) ∧
      (s.currentStepIndex = 6 →
        (handleNext s).currentStepIndex = 6 ∧
        (handleNext s).isPlaying = false) ∧
      (handleNext (handleNext (handleNext (handleNext (handleNext (handleNext
        { currentStepIndex := 0, isPlaying := false })))))).currentStepIndex = 6 ∧
      (handleNext (handleNext (handleNext (handleNext (handleNext (handleNext (handleNext
        { currentStepIndex := 0, isPlaying := false }))))))).currentStepIndex = 6 := by
  intro s
  refine ⟨?_, ?_, by decide, by decide⟩
  · intro h
    simp only [handleNext, STEPS_SEQUENCE]
    norm_num
    rw [if_pos h]
    exact ⟨rfl, rfl⟩
  · intro h
    simp only [handleNext, STEPS_SEQUENCE]
    norm_num
    rw [if_neg (by omega)]
    exact ⟨h, rfl⟩

/-- C6 witness: the theorem applied at indices 2 and 6. -/
theorem c6_advance_semantics_witness :
    (handleNext { currentStepIndex := 2, isPlaying := true }).currentStepIndex = 3 ∧
    (handleNext { currentStepIndex := 6, isPlaying := true }).isPlaying = false :=
  ⟨((c6_advance_semantics { currentStepIndex := 2, isPlaying := true }).1 (by decide)).1,
   ((c6_advance_semantics { currentStepIndex := 6, isPlaying := true }).2.1 rfl).2⟩

/-- C7: `togglePlay` at the terminal index 6 performs a replay — index
0 and auto-advance on; at any other index it keeps the index and
negates the auto-advance flag. -/
theorem c7_togglePlay_semantics :
    ∀ s : PlaybackState,
      (s.currentStepIndex = 6 →
        togglePlay s = { currentStepIndex := 0, isPlaying := true }) ∧
      (s.currentStepIndex ≠ 6 →
        (togglePlay s).currentStepIndex = s.currentStepIndex ∧
        (togglePlay s).isPlaying = !s.isPlaying) := by
  intro s
  constructor
  · intro h
    simp only [togglePlay, STEPS_SEQUENCE]
    norm_num
    rw [if_pos h]
    rfl
  · intro h
    simp only [togglePlay, STEPS_SEQUENCE]
    norm_num
    rw [if_neg h]
    exact ⟨rfl, rfl⟩

/-- C7 witness: the theorem applied at indices 6 and 2. -/
theorem c7_togglePlay_semantics_witness :
    togglePlay { currentStepIndex := 6, isPlaying := false } =
      { currentStepIndex := 0, isPlaying := true } ∧
    (togglePlay { currentStepIndex := 2, isPlaying := false }).isPlaying = true :=
  ⟨(c7_togglePlay_semantics { currentStepIndex := 6, isPlaying := false }).1 rfl,
   ((c7_togglePlay_semantics { currentStepIndex := 2, isPlaying := false }).2 (by decide)).2⟩

/-- C8: the derived render state is a function of the current index
alone (`simulationState` takes nothing else), and for every index in
range, `isEncrypted` holds exactly at the index of `SECURE_TUNNEL` (6)
and `keysExchanged` exactly from the index of `KEY_DERIVATION` (3)
onward. -/
theorem c8_derived_state :
    ∀ i : Fin 7,
      (simulationState i.val).isEncrypted =
        decide (i.val = STEPS_SEQUENCE.indexOf TlsStep.SECURE_TUNNEL) ∧
      (simulationState i.val).keysExchanged =
        decide (STEPS_SEQUENCE.indexOf TlsStep.KEY_DERIVATION ≤ i.val) := by
  decide

/-- C10: for every index, `clientKey` and `serverKey` are both
`some "generated"` from index 3 onward and both absent below it, and the
visibility of each key coincides with the `keysExchanged` flag in every
derived render state. -/
theorem c10_key_fields :
    ∀ i : Nat,
      (simulationState i).clientKey = (if 3 ≤ i then some "generated" else none) ∧
      (simulationState i).serverKey = (if 3 ≤ i then some "generated" else none) ∧
      (simulationState i).clientKey.isSome = (simulationState i).keysExchanged ∧
      (simulationState i).serverKey.isSome = (simulationState i).keysExchanged := by
  intro i
  by_cases h : 3 ≤ i <;> simp [simulationState, h]

/-- C9: the transcript is append-only — every single event leaves the
chat history unchanged or appends exactly one turn at its end, and over
any sequence of events the earlier transcript persists unchanged as a
front segment of the later one (nothing is edited, removed or
reordered). -/
theorem c9_transcript_append_only :
    (∀ (apiKey : String) (s : AppState) (e : AppEvent),
      ∃ t, (appStep apiKey s e).chatHistory = s.chatHistory ++ t ∧ t.length ≤ 1) ∧
    (∀ (apiKey : String) (s : AppState) (es : List AppEvent),
      ∃ t, (List.foldl (appStep apiKey) s es).chatHistory = s.chatHistory ++ t) := by
  refine ⟨appStep_chatHistory_append, ?_⟩
  intro apiKey s es
  induction es generalizing s with
  | nil => exact ⟨[], by simp⟩
  | cons e es ih =>
      obtain ⟨t1, h1, _⟩ := appStep_chatHistory_append apiKey s e
      obtain ⟨t2, h2⟩ := ih (appStep apiKey s e)
      exact ⟨t1 ++ t2, by simp [List.foldl_cons, h2, h1]⟩

/-- C3 counterexample: the claim says every operation changes
`currentIndex` by at most 1 from every reachable state, but `reset` from
the reachable state at index 2 (two advances from the initial state)
jumps straight to index 0, a change of 2 that skips index 1. -/
theorem c3_counterexample :
    (List.foldl (appStep "") initialState
        [AppEvent.next, AppEvent.next]).playback.currentStepIndex = 2 ∧
    (appStep ""
        (List.foldl (appStep "") initialState [AppEvent.next, AppEvent.next])
        AppEvent.reset).playback.currentStepIndex = 0 ∧
    ¬ Nat.dist 0 2 ≤ 1 := by
  refine ⟨by decide, by decide, by decide⟩

/-- C3 (amended): `advance`, `retreat` and the timer tick change the
index by at most 1, and no operation ever increases the index by more
than 1 (no forward skip); but `reset` — and `togglePlay` at the terminal
index — jump directly to index 0, which from indices ≥ 2 moves backward
by more than 1. -/
theorem c3_amended_no_forward_skip :
    ∀ s : PlaybackState,
      Nat.dist (handleNext s).currentStepIndex s.currentStepIndex ≤ 1 ∧
      Nat.dist (handlePrev s).currentStepIndex s.currentStepIndex ≤ 1 ∧
      Nat.dist (timerTick s).currentStepIndex s.currentStepIndex ≤ 1 ∧
      (handleReset s).currentStepIndex = 0 ∧
      ((togglePlay s).currentStepIndex = 0 ∨
        (togglePlay s).currentStepIndex = s.currentStepIndex) ∧
      (handleNext s).currentStepIndex ≤ s.currentStepIndex + 1 ∧
      (handlePrev s).currentStepIndex ≤ s.currentStepIndex + 1 ∧
      (handleReset s).currentStepIndex ≤ s.currentStepIndex + 1 ∧
      (togglePlay s).currentStepIndex ≤ s.currentStepIndex + 1 ∧
      (timerTick s).currentStepIndex ≤ s.currentStepIndex + 1 := by
  intro s
  obtain ⟨i, p⟩ := s
  simp only [handleNext, handlePrev, handleReset, togglePlay, timerTick,
    STEPS_SEQUENCE]
  norm_num
  split_ifs <;> simp_all [Nat.dist] <;> omega

/-- C1 counterexample: the race the claim describes, run through the
step relation. From the initial state, advance to `CLIENT_HELLO` (a
deep-dive request is issued for it), advance again to `SERVER_HELLO` (a
second request is issued); the `SERVER_HELLO` response arrives first and
is displayed; then the late `CLIENT_HELLO` response arrives — and
`setAiTip(tip)` applies it unconditionally, so the displayed text ends
as the stale `CLIENT_HELLO` payload instead of remaining the
`SERVER_HELLO` value: the code has no staleness check. -/
theorem c1_counterexample :
    (List.foldl (appStep "k") initialState
        [AppEvent.next, AppEvent.next,
         AppEvent.tipArrives 1 (FetchOutcome.success "server hello deep dive")]).aiTip
      = "server hello deep dive" ∧
    (List.foldl (appStep "k") initialState
        [AppEvent.next, AppEvent.next,
         AppEvent.tipArrives 1 (FetchOutcome.success "server hello deep dive"),
         AppEvent.tipArrives 0 (FetchOutcome.success "client hello deep dive")]).aiTip
      = "client hello deep dive" ∧
    "client hello deep dive" ≠ "server hello deep dive" := by
  refine ⟨by decide, by decide, by decide⟩

/-- C1 (amended): the deep-dive effect applies every arriving response
unconditionally — when the `i`-th pending request (issued for step `st`)
resolves, `aiTip` becomes that response's text even if `st` differs from
the step current at arrival time; a late response for a left stage
overwrites the display rather than being discarded. -/
theorem c1_amended_stale_response_overwrites :
    ∀ (apiKey : String) (s : AppState) (i : Nat) (st : TlsStep)
      (outcome : FetchOutcome),
      s.pendingTip[i]? = some st →
      (appStep apiKey s (AppEvent.tipArrives i outcome)).aiTip =
        getStepDeepDive apiKey (stepTitle st) outcome := by
  intro apiKey s i st outcome h
  simp [appStep, h]

/-- C1 amended witness: the theorem applied to a state whose pending
request originates from `CLIENT_HELLO` while the current step is
`SERVER_HELLO` (index 2). -/
theorem c1_amended_stale_response_overwrites_witness :
    (appStep "k"
        { initialState with
          playback := { currentStepIndex := 2, isPlaying := false }
          pendingTip := [TlsStep.CLIENT_HELLO] }
        (AppEvent.tipArrives 0 (FetchOutcome.success "late"))).aiTip =
      getStepDeepDive "k" (stepTitle TlsStep.CLIENT_HELLO)
        (FetchOutcome.success "late") :=
  c1_amended_stale_response_overwrites "k"
    { initialState with
      playback := { currentStepIndex := 2, isPlaying := false }
      pendingTip := [TlsStep.CLIENT_HELLO] }
    0 TlsStep.CLIENT_HELLO (FetchOutcome.success "late") (by decide)

/-- C2 counterexample: a state with a question already in flight is
reached by submitting "p"; with `isLoading` still true, typing and
submitting a second question "q" is not rejected — `handleChatSubmit`
has no in-flight guard, so the transcript grows from 1 turn to 2. -/
theorem c2_counterexample :
    (List.foldl (appStep "k") initialState
        [AppEvent.setInput "p", AppEvent.chatSubmit]).isLoading = true ∧
    (List.foldl (appStep "k") initialState
        [AppEvent.setInput "p", AppEvent.chatSubmit]).chatHistory.length = 1 ∧
    (List.foldl (appStep "k") initialState
        [AppEvent.setInput "p", AppEvent.chatSubmit,
         AppEvent.setInput "q", AppEvent.chatSubmit]).chatHistory.length = 2 := by
  refine ⟨by decide, by decide, by decide⟩

/-- C2 (amended): submitting an empty or whitespace-only question is a
complete no-op (state unchanged, no request issued); but there is no
in-flight guard — a non-blank submission always appends the asker turn
and issues a request, even while `isLoading` is true (overlap is
prevented only by the disabled Send button in the rendering layer). -/
theorem c2_amended_submit_guard :
    ∀ (apiKey : String) (s : AppState),
      (trimmedEmpty s.chatInput = true → appStep apiKey s AppEvent.chatSubmit = s) ∧
      (trimmedEmpty s.chatInput = false →
        (appStep apiKey s AppEvent.chatSubmit).chatHistory =
          s.chatHistory ++
            [{ role := ChatRole.user, text := s.chatInput, isError := none }] ∧
        (appStep apiKey s AppEvent.chatSubmit).isLoading = true ∧
        (appStep apiKey s AppEvent.chatSubmit).pendingChat =
          s.pendingChat ++ [(s.chatInput, stepTitle (currentStepOf s))]) := by
  intro apiKey s
  constructor
  · intro h
    simp [appStep, handleChatSubmit, h]
  · intro h
    refine ⟨?_, ?_, ?_⟩ <;> simp [appStep, handleChatSubmit, h]

/-- C2 amended witness: the theorem applied to the initial state (blank
input) and to a loading state with input "hi". -/
theorem c2_amended_submit_guard_witness :
    appStep "" initialState AppEvent.chatSubmit = initialState ∧
    (appStep ""
        { initialState with chatInput := "hi", isLoading := true }
        AppEvent.chatSubmit).isLoading = true :=
  ⟨(c2_amended_submit_guard "" initialState).1 (by decide),
   ((c2_amended_submit_guard ""
      { initialState with chatInput := "hi", isLoading := true }).2
      (by decide)).2.1⟩

/-- C4 counterexample: submit "q" and let the request fail. The
responder turn appended by `handleChatSubmit` carries the fixed apology
text, but its `isError` field is absent (`none`), not `true`: the
failure flag declared in `ChatMessage` is never set anywhere in the
code. -/
theorem c4_counterexample :
    (List.foldl (appStep "k") initialState
        [AppEvent.setInput "q", AppEvent.chatSubmit,
         AppEvent.chatArrives 0 FetchOutcome.failure]).chatHistory =
      [{ role := ChatRole.user, text := "q", isError := none },
       { role := ChatRole.model,
         text := "Failed to retrieve explanation. Please try again later.",
         isError := none }] ∧
    (none : Option Bool) ≠ some true := by
  refine ⟨by decide, by decide⟩

/-- C4 (amended): for every resolution of a pending chat request under a
configured key, failure appends a responder turn whose text is the fixed
apology string and success (with non-empty text) appends a responder
turn carrying the returned text — but in both cases the turn's `isError`
field is left unset (`none`); no turn is ever marked failed. -/
theorem c4_amended_responder_turn :
    ∀ (apiKey q ctx : String) (s : AppState) (i : Nat) (t : String),
      s.pendingChat[i]? = some (q, ctx) →
      apiKey ≠ "" →
      ((appStep apiKey s (AppEvent.chatArrives i FetchOutcome.failure)).chatHistory =
        s.chatHistory ++
          [{ role := ChatRole.model,
             text := "Failed to retrieve explanation. Please try again later.",
             isError := none }]) ∧
      (t ≠ "" →
        (appStep apiKey s (AppEvent.chatArrives i (FetchOutcome.success t))).chatHistory =
          s.chatHistory ++
            [{ role := ChatRole.model, text := t, isError := none }]) := by
  intro apiKey q ctx s i t h hk
  constructor
  · simp [appStep, h, explainConcept, hk]
  · intro ht
    simp [appStep, h, explainConcept, hk, ht]

/-- C4 amended witness: the theorem applied to a state with one pending
chat request, key "k" and success text "ok". -/
theorem c4_amended_responder_turn_witness :
    (appStep "k" { initialState with pendingChat := [("q", "ctx")] }
        (AppEvent.chatArrives 0 FetchOutcome.failure)).chatHistory =
      [{ role := ChatRole.model,
         text := "Failed to retrieve explanation. Please try again later.",
         isError := none }] :=
  (c4_amended_responder_turn "k" "q" "ctx"
    { initialState with pendingChat := [("q", "ctx")] } 0 "ok"
    (by decide) (by decide)).1
